import Mathlib

/-!
Shallow embedding of the result-extraction core of `src/runner.py`
(the `safe_get` helper, the derived metrics, the results mapping and the
output contract of `run_backtest`).

Modelling choices:
* Python values that occur in analyzer reports are the inductive `PyVal`.
  A finite Python float is modelled exactly by a rational (`PyVal.float`);
  the floating-point NaN placeholder is a separate constructor `PyVal.nan`
  (this is what `isinstance(val, float) and math.isnan(val)` tests).
  IEEE rounding is not modelled; no claim depends on it.
* Python `dict` values are association lists keyed by strings; analyzer
  objects exposing named attributes are `PyVal.obj`.  On this report
  domain, scalars carry no attributes relevant to metric names, so
  3-argument `getattr(val, k, None)` yields `None` on them.
* Python exceptions are modelled with `Except String`, the error string
  naming the exception class (`"TypeError"`, `"ZeroDivisionError"`, ...).
* `safe_get`'s Python signature normalises a single key to a one-element
  list (`if not isinstance(keys, (list, tuple)): keys = [keys]`); here the
  path is always passed as a `List String`.  Its Python default argument
  `default=None` is passed explicitly as `PyVal.none` at call sites that
  omit it.
-/

namespace Course0

/-- A Python value as it occurs in analyzer reports. -/
inductive PyVal : Type where
  | none : PyVal
  | bool : Bool → PyVal
  | int : Int → PyVal
  | float : ℚ → PyVal
  | nan : PyVal
  | str : String → PyVal
  | dict : List (String × PyVal) → PyVal
  | obj : List (String × PyVal) → PyVal

/-- Python `val is None`. -/
def PyVal.isNone : PyVal → Bool
  | .none => true
  | _ => false

/-- Python `isinstance(val, float) and math.isnan(val)`. -/
def PyVal.isNaN : PyVal → Bool
  | .nan => true
  | _ => false

/-- Python numeric coercion: bools, ints and finite floats act as exact
rationals in arithmetic and comparisons; `None`, NaN, strings and
containers do not coerce. -/
def PyVal.toRat? : PyVal → Option ℚ
  | .bool b => some (if b then 1 else 0)
  | .int n => some (n : ℚ)
  | .float q => some q
  | _ => Option.none

/-- Membership of Python's numeric tower (bool, int, float including NaN). -/
def PyVal.isNum : PyVal → Bool
  | .bool _ => true
  | .int _ => true
  | .float _ => true
  | .nan => true
  | _ => false

/-- Whether a value is a Python `float` (finite or NaN); used for int/float
promotion of arithmetic results. -/
def PyVal.isFloatLike : PyVal → Bool
  | .float _ => true
  | .nan => true
  | _ => false

/-- Integer value of a bool/int operand (promotion helper). -/
def PyVal.toIntv : PyVal → Int
  | .bool b => if b then 1 else 0
  | .int n => n
  | _ => 0

/-- One traversal step of `safe_get` (src/runner.py lines 126-127):
`val.get(k)` when `val` is a dict (missing key gives `None`), otherwise
`getattr(val, k, None)` (missing attribute gives the supplied `None`).
Neither form raises on this domain. -/
def step : PyVal → String → PyVal
  | .dict entries, k => (entries.lookup k).getD .none
  | .obj attrs, k => (attrs.lookup k).getD .none
  | _, _ => .none

/-- The genuinely stored entry of a mapping/object under a key or
attribute name, if any (distinguishes a stored `None` from a missing
entry, which `step` cannot). -/
def hasEntry : PyVal → String → Option PyVal
  | .dict entries, k => entries.lookup k
  | .obj attrs, k => attrs.lookup k
  | _, _ => Option.none

/-- The `for k in keys` loop of `safe_get` followed by the final NaN
check (lines 125-131): each iteration steps and returns `default` as soon
as the stepped value `is None`; after the loop a float NaN also yields
`default`. -/
def safe_getLoop (default : PyVal) : PyVal → List String → PyVal
  | val, [] => if val.isNaN then default else val
  | val, k :: ks =>
      let v := step val k
      if v.isNone then default else safe_getLoop default v ks

/-- `safe_get` from `run_backtest` (src/runner.py lines 120-133): `None`
analysis gives the default immediately; otherwise the path is walked one
step at a time with early default on a missing step, and a final NaN is
replaced by the default. -/
def safe_get (analysis : PyVal) (keys : List String) (default : PyVal) : PyVal :=
  if analysis.isNone then default else safe_getLoop default analysis keys

/-- The bare loop as a partial traversal: `Option.none` exactly when the
loop would return the default early (a step produced Python `None`). -/
def walk : PyVal → List String → Option PyVal
  | v, [] => some v
  | v, k :: ks =>
      let w := step v k
      if w.isNone then Option.none else walk w ks

/-- Traversal outcome before the final NaN substitution: `Option.none`
exactly when `safe_get` returns its default for a reason other than the
final NaN check. -/
def resolveRaw (analysis : PyVal) (keys : List String) : Option PyVal :=
  if analysis.isNone then Option.none else walk analysis keys

/-- Full resolution: `Option.none` exactly when `safe_get` returns its
default. -/
def resolve (analysis : PyVal) (keys : List String) : Option PyVal :=
  match resolveRaw analysis keys with
  | Option.none => Option.none
  | some v => if v.isNaN then Option.none else some v

/-- Exception-aware rendering of one traversal step.  On this report
domain `dict.get` with a string key and 3-argument `getattr` with a string
attribute name cannot raise, which the `Except` embedding makes explicit:
every step is `.ok`. -/
def stepE (v : PyVal) (k : String) : Except String PyVal :=
  .ok (step v k)

/-- The `try` body of `safe_get` (lines 124-131) run in the exception
monad: a raising step would propagate its exception. -/
def tryBody (default : PyVal) : PyVal → List String → Except String PyVal
  | val, [] => .ok (if val.isNaN then default else val)
  | val, k :: ks =>
      match stepE val k with
      | .error e => .error e
      | .ok v => if v.isNone then .ok default else tryBody default v ks

/-- `safe_get` with Python exception propagation made explicit: the `try`
body runs in `Except`, and `except (AttributeError, KeyError)` converts
those two exception classes to `return default` (line 132-133); any other
exception would escape. -/
def safe_getE (analysis : PyVal) (keys : List String) (default : PyVal) :
    Except String PyVal :=
  if analysis.isNone then .ok default
  else
    match tryBody default analysis keys with
    | .ok v => .ok v
    | .error e =>
        if e == "AttributeError" || e == "KeyError" then .ok default
        else .error e

/-- Python `x != 0`: numbers compare by value; `None`, NaN, strings and
containers are all unequal to `0` (no exception). -/
def pyNeZero (v : PyVal) : Bool :=
  match v.toRat? with
  | some q => decide (q ≠ 0)
  | Option.none => true

/-- Python `x > y` restricted to the shapes occurring here: NaN compares
false, numbers compare by value, and any other operand combination raises
`TypeError` (notably `None > 0`). -/
def pyGt (a b : PyVal) : Except String Bool :=
  if a.isNaN || b.isNaN then .ok false
  else
    match a.toRat?, b.toRat? with
    | some x, some y => .ok (decide (y < x))
    | _, _ => .error "TypeError"

/-- Python true division `a / b`: always a float on numbers, raising
`ZeroDivisionError` on a zero divisor and `TypeError` on non-numbers. -/
def pyDiv (a b : PyVal) : Except String PyVal :=
  if a.isNum && b.isNum then
    if b.isNaN then .ok .nan
    else if b.toRat?.getD 0 = 0 then .error "ZeroDivisionError"
    else if a.isNaN then .ok .nan
    else .ok (.float (a.toRat?.getD 0 / b.toRat?.getD 0))
  else .error "TypeError"

/-- Python `a * b` on numbers, with int/float promotion. -/
def pyMul (a b : PyVal) : Except String PyVal :=
  if a.isNum && b.isNum then
    if a.isNaN || b.isNaN then .ok .nan
    else if a.isFloatLike || b.isFloatLike then
      .ok (.float (a.toRat?.getD 0 * b.toRat?.getD 0))
    else .ok (.int (a.toIntv * b.toIntv))
  else .error "TypeError"

/-- Python `abs`. -/
def pyAbs : PyVal → Except String PyVal
  | .int n => .ok (.int |n|)
  | .float q => .ok (.float |q|)
  | .nan => .ok .nan
  | .bool b => .ok (.int (if b then 1 else 0))
  | _ => .error "TypeError"

/-- Path of the winning-PnL total inside the trade analysis. -/
def wonPnlPath : List String := ["won", "pnl", "total"]

/-- Path of the losing-PnL total inside the trade analysis. -/
def lostPnlPath : List String := ["lost", "pnl", "total"]

/-- The `win_rate_pct` entry (src/runner.py lines 159-160): the guard
evaluates `safe_get(trade_analysis, ['total','closed']) > 0` (default
`None`!); when it holds, `won-total / closed-total * 100` with fallbacks
0 and 1, otherwise the int `0`. -/
def win_rate_pct (trade_analysis : PyVal) : Except String PyVal :=
  match pyGt (safe_get trade_analysis ["total", "closed"] PyVal.none) (.int 0) with
  | .error e => .error e
  | .ok c =>
      if c then
        match pyDiv (safe_get trade_analysis ["won", "total"] (.int 0))
                    (safe_get trade_analysis ["total", "closed"] (.int 1)) with
        | .error e => .error e
        | .ok r => pyMul r (.int 100)
      else .ok (.int 0)

/-- The `profit_factor` entry (src/runner.py lines 164-165): the guard
evaluates `safe_get(trade_analysis, ['lost','pnl','total']) != 0`
(default `None`, and in Python `None != 0` holds); when it holds,
`abs(won-total / lost-total)` with fallbacks 0 and 1, otherwise `None`. -/
def profit_factor (trade_analysis : PyVal) : Except String PyVal :=
  if pyNeZero (safe_get trade_analysis lostPnlPath PyVal.none) then
    match pyDiv (safe_get trade_analysis wonPnlPath (.int 0))
                (safe_get trade_analysis lostPnlPath (.int 1)) with
    | .error e => .error e
    | .ok r => pyAbs r
  else .ok PyVal.none

/-- `return_pct` (src/runner.py line 105). -/
def return_pct (initial_value final_value : ℚ) : ℚ :=
  if initial_value ≠ 0 then (final_value - initial_value) / initial_value * 100
  else 0

/-- The `results` mapping (src/runner.py lines 136-173), in source order.
All entries other than `win_rate_pct` and `profit_factor` are pure (they
cannot raise), so the two fallible entries are sequenced first, in their
source order (`win_rate_pct` precedes `profit_factor` in the dict
literal, so its exception fires first, as in Python). -/
def buildResults (initial_value final_value : ℚ)
    (returns_a sharpe_a calmar_a sqn_a drawdown_a trade_a annual_a : PyVal) :
    Except String (List (String × PyVal)) :=
  match win_rate_pct trade_a with
  | .error e => .error e
  | .ok wr =>
  match profit_factor trade_a with
  | .error e => .error e
  | .ok pf =>
  .ok [
    ("initial_value", .float initial_value),
    ("final_value", .float final_value),
    ("return_pct", .float (return_pct initial_value final_value)),
    ("annualized_return_pct", safe_get returns_a ["rannually"] PyVal.none),
    ("sharpe_ratio", safe_get sharpe_a ["sharperatio"] PyVal.none),
    ("calmar_ratio", safe_get calmar_a ["calmar"] PyVal.none),
    ("sqn", safe_get sqn_a ["sqn"] PyVal.none),
    ("max_drawdown_pct", safe_get drawdown_a ["max", "drawdown"] PyVal.none),
    ("max_drawdown_money", safe_get drawdown_a ["max", "moneydown"] PyVal.none),
    ("max_drawdown_duration_bars", safe_get drawdown_a ["max", "len"] PyVal.none),
    ("total_trades", safe_get trade_a ["total", "total"] (.int 0)),
    ("trades_open", safe_get trade_a ["total", "open"] (.int 0)),
    ("trades_closed", safe_get trade_a ["total", "closed"] (.int 0)),
    ("win_trades", safe_get trade_a ["won", "total"] (.int 0)),
    ("loss_trades", safe_get trade_a ["lost", "total"] (.int 0)),
    ("win_rate_pct", wr),
    ("total_net_pnl", safe_get trade_a ["pnl", "net", "total"] (.int 0)),
    ("average_win_pnl", safe_get trade_a ["won", "pnl", "average"] (.int 0)),
    ("average_loss_pnl", safe_get trade_a ["lost", "pnl", "average"] (.int 0)),
    ("profit_factor", pf),
    ("max_consecutive_wins", safe_get trade_a ["streak", "won", "longest"] (.int 0)),
    ("max_consecutive_losses", safe_get trade_a ["streak", "lost", "longest"] (.int 0)),
    ("average_trade_duration_bars", safe_get trade_a ["len", "average"] PyVal.none),
    ("annual_returns", annual_a)
  ]

/-- The `parameters` block of the output (src/runner.py lines 30-36). -/
structure Params where
  symbols : List String
  start_date : String
  end_date : String
  fast_period : Int
  slow_period : Int

/-- What a successful engine/data phase of `run_backtest` (lines 42-117)
delivers: the broker values around the run and the seven analyzer
outputs. -/
structure EngineRun where
  initial_value : ℚ
  final_value : ℚ
  returns_a : PyVal
  sharpe_a : PyVal
  calmar_a : PyVal
  sqn_a : PyVal
  drawdown_a : PyVal
  trade_a : PyVal
  annual_a : PyVal

/-- The `results_data` output triple (src/runner.py lines 29-39): the dict
literal has exactly the keys `parameters`, `results`, `error`. -/
structure ResultsData where
  parameters : Params
  results : List (String × PyVal)
  error : Option String

/-- The `try` body of `run_backtest`: the engine/data phase is abstracted
by its outcome `engine` (everything up to line 117 either yields broker
values and analyzer outputs or raises), after which the results mapping
is built (lines 136-173). -/
def runBody (engine : Except String EngineRun) :
    Except String (List (String × PyVal)) :=
  match engine with
  | .error e => .error e
  | .ok e =>
      buildResults e.initial_value e.final_value
        e.returns_a e.sharpe_a e.calmar_a e.sqn_a e.drawdown_a e.trade_a e.annual_a

/-- `run_backtest` (src/runner.py lines 24-191): initialises the output
triple with empty results and `error = None`; on success returns it with
the results filled in; on an exception `e` records `str(e)` in the
`error` field and re-raises (lines 185-189) — the `.error` case carries
both the exception and the recorded output state. -/
def run_backtest (p : Params) (engine : Except String EngineRun) :
    Except (String × ResultsData) ResultsData :=
  match runBody engine with
  | .ok res => .ok { parameters := p, results := res, error := Option.none }
  | .error e => .error (e, { parameters := p, results := [], error := some e })

/-- The field names of the `results` mapping, in source order. -/
def resultKeys : List String :=
  ["initial_value", "final_value", "return_pct", "annualized_return_pct",
   "sharpe_ratio", "calmar_ratio", "sqn", "max_drawdown_pct",
   "max_drawdown_money", "max_drawdown_duration_bars", "total_trades",
   "trades_open", "trades_closed", "win_trades", "loss_trades",
   "win_rate_pct", "total_net_pnl", "average_win_pnl", "average_loss_pnl",
   "profit_factor", "max_consecutive_wins", "max_consecutive_losses",
   "average_trade_duration_bars", "annual_returns"]

/-- The fields whose explicit per-field fallback is `None` (the `safe_get`
calls with the default default, plus `profit_factor`, whose explicit
fallback for a zero losing total is `None`). -/
def noneFallbackKeys : List String :=
  ["annualized_return_pct", "sharpe_ratio", "calmar_ratio", "sqn",
   "max_drawdown_pct", "max_drawdown_money", "max_drawdown_duration_bars",
   "average_trade_duration_bars", "profit_factor"]

/-- One output field is acceptable when its value is not NaN and is `None`
only if that field's explicit fallback is `None`. -/
def entryOK (kv : String × PyVal) : Bool :=
  !kv.2.isNaN && (!kv.2.isNone || noneFallbackKeys.contains kv.1)

/-- Checker for the normalised output: construction succeeded, no value is
NaN, and a `None` value occurs only at a field whose explicit fallback is
`None`. -/
def fieldsOK : Except String (List (String × PyVal)) → Bool
  | .error _ => false
  | .ok r => r.all entryOK

/-- Specification-side description of the amended `profit_factor`
behaviour, as a function of the resolved losing-PnL total (`Option.none`
when the losing path does not resolve to a value) and the winning total
`won` (0 when that path does not resolve): `None` exactly when the
losing total resolves to 0; `|won / lost|` when it resolves to a nonzero
number; `|won / 1| = |won|` when it does not resolve. -/
def pfSpec : Option ℚ → ℚ → PyVal
  | some q, won => if q = 0 then PyVal.none else PyVal.float |won / q|
  | Option.none, won => PyVal.float |won|

/-- The trade analysis of a run with zero trades, as the external
analyzer produces it: only the total trade count is present, the
`closed` count is absent. -/
def zeroTradesTA : PyVal := .dict [("total", .dict [("total", .int 0)])]

/-- A trade analysis whose closed-trade count is present and zero. -/
def closedZeroTA : PyVal :=
  .dict [("total", .dict [("total", .int 0), ("closed", .int 0)])]

/-- A trade analysis with winning total 500 and losing total −250. -/
def ta500 : PyVal :=
  .dict [("won", .dict [("pnl", .dict [("total", .float 500)])]),
         ("lost", .dict [("pnl", .dict [("total", .float (-250))])])]

/-- A trade analysis with only a losing total (no winning entry). -/
def taLostOnly : PyVal :=
  .dict [("lost", .dict [("pnl", .dict [("total", .float (-250))])])]

/-- A report whose resolved value is NaN (the spec example). -/
def nanReport : PyVal := .dict [("a", .dict [("b", .nan)])]

/-- Sample parameters for concrete runs. -/
def sampleParams : Params :=
  { symbols := ["AAPL"], start_date := "2020-01-01", end_date := "2025-03-25",
    fast_period := 10, slow_period := 30 }

/-- A complete, numerically populated trade analysis. -/
def fullTA : PyVal :=
  .dict [("total", .dict [("total", .int 5), ("open", .int 1), ("closed", .int 4)]),
         ("won", .dict [("total", .int 3),
                        ("pnl", .dict [("total", .float 600), ("average", .float 200)])]),
         ("lost", .dict [("total", .int 1),
                         ("pnl", .dict [("total", .float (-100)), ("average", .float (-100))])])]

/-- An engine outcome on which the whole normalisation succeeds without
any rational division (closed count 0, losing total present and 0). -/
def plainEngine : EngineRun :=
  { initial_value := 0, final_value := 0,
    returns_a := PyVal.none, sharpe_a := PyVal.none, calmar_a := PyVal.none,
    sqn_a := PyVal.none, drawdown_a := PyVal.none,
    trade_a := .dict [("total", .dict [("total", .int 0), ("closed", .int 0)]),
                      ("lost", .dict [("pnl", .dict [("total", .int 0)])])],
    annual_a := .dict [] }

/-- The results mapping `plainEngine` normalises to. -/
def plainResults : List (String × PyVal) :=
  [("initial_value", .float 0), ("final_value", .float 0), ("return_pct", .float 0),
   ("annualized_return_pct", PyVal.none), ("sharpe_ratio", PyVal.none),
   ("calmar_ratio", PyVal.none), ("sqn", PyVal.none),
   ("max_drawdown_pct", PyVal.none), ("max_drawdown_money", PyVal.none),
   ("max_drawdown_duration_bars", PyVal.none),
   ("total_trades", .int 0), ("trades_open", .int 0), ("trades_closed", .int 0),
   ("win_trades", .int 0), ("loss_trades", .int 0), ("win_rate_pct", .int 0),
   ("total_net_pnl", .int 0), ("average_win_pnl", .int 0),
   ("average_loss_pnl", .int 0), ("profit_factor", PyVal.none),
   ("max_consecutive_wins", .int 0), ("max_consecutive_losses", .int 0),
   ("average_trade_duration_bars", PyVal.none), ("annual_returns", .dict [])]

/-- An engine outcome whose run succeeded but whose trade analysis is the
zero-trade one (`closed` absent). -/
def zeroTradesEngine : EngineRun :=
  { initial_value := 0, final_value := 0,
    returns_a := PyVal.none, sharpe_a := PyVal.none, calmar_a := PyVal.none,
    sqn_a := PyVal.none, drawdown_a := PyVal.none,
    trade_a := zeroTradesTA, annual_a := .dict [] }

/-! ### Basic facts about the value domain -/

theorem PyVal.isNum_of_toRat {v : PyVal} {q : ℚ} (h : v.toRat? = some q) :
    v.isNum = true := by
  cases v <;> simp [PyVal.toRat?, PyVal.isNum] at h ⊢

theorem PyVal.not_nan_of_toRat {v : PyVal} {q : ℚ} (h : v.toRat? = some q) :
    v.isNaN = false := by
  cases v <;> simp [PyVal.toRat?, PyVal.isNaN] at h ⊢

theorem PyVal.not_none_of_toRat {v : PyVal} {q : ℚ} (h : v.toRat? = some q) :
    v.isNone = false := by
  cases v <;> simp [PyVal.toRat?, PyVal.isNone] at h ⊢

theorem PyVal.toRat_getD {v : PyVal} {q : ℚ} (h : v.toRat? = some q) :
    v.toRat?.getD 0 = q := by
  rw [h]; rfl

/-! ### The traversal core of `safe_get` -/

theorem safe_getLoop_eq_walk (d : PyVal) (keys : List String) (val : PyVal) :
    safe_getLoop d val keys =
      match walk val keys with
      | Option.none => d
      | some v => if v.isNaN then d else v := by
  induction keys generalizing val with
  | nil => rfl
  | cons k ks ih =>
      simp only [safe_getLoop, walk]
      cases h : (step val k).isNone
      · simp only [h, Bool.false_eq_true, if_false, ih]
      · simp only [h, if_true]

theorem safe_get_eq_resolve (a : PyVal) (keys : List String) (d : PyVal) :
    safe_get a keys d = (resolve a keys).getD d := by
  unfold safe_get resolve resolveRaw
  cases h : a.isNone
  · simp only [h, Bool.false_eq_true, if_false]
    rw [safe_getLoop_eq_walk]
    cases hw : walk a keys
    · rfl
    · rename_i v
      cases hn : v.isNaN
      · simp [hn]
      · simp [hn]
  · simp [h]

theorem walk_append (pre rest : List String) (val : PyVal) :
    walk val (pre ++ rest) = (walk val pre).bind fun v => walk v rest := by
  induction pre generalizing val with
  | nil => rfl
  | cons k ks ih =>
      simp only [List.cons_append, walk]
      cases h : (step val k).isNone
      · simp only [h, Bool.false_eq_true, if_false]
        exact ih (step val k)
      · simp only [h, if_true, Option.none_bind]

theorem walk_not_none {val : PyVal} {keys : List String} {v : PyVal}
    (hval : val.isNone = false) (h : walk val keys = some v) :
    v.isNone = false := by
  induction keys generalizing val with
  | nil =>
      simp only [walk, Option.some_inj] at h
      exact h ▸ hval
  | cons k ks ih =>
      simp only [walk] at h
      cases hs : (step val k).isNone
      · rw [hs] at h
        simp only [Bool.false_eq_true, if_false] at h
        exact ih hs h
      · rw [hs] at h
        simp at h

theorem resolveRaw_not_none {a : PyVal} {keys : List String} {v : PyVal}
    (h : resolveRaw a keys = some v) : v.isNone = false := by
  unfold resolveRaw at h
  cases ha : a.isNone
  · rw [ha] at h
    simp only [Bool.false_eq_true, if_false] at h
    exact walk_not_none ha h
  · rw [ha] at h; simp at h

theorem resolve_not_nan {a : PyVal} {keys : List String} {v : PyVal}
    (h : resolve a keys = some v) : v.isNaN = false := by
  unfold resolve at h
  cases hr : resolveRaw a keys <;> rw [hr] at h
  · simp at h
  · rename_i w
    cases hn : w.isNaN
    · simp only [hn, Bool.false_eq_true, if_false, Option.some_inj] at h
      exact h ▸ hn
    · simp [hn] at h

theorem resolve_not_none {a : PyVal} {keys : List String} {v : PyVal}
    (h : resolve a keys = some v) : v.isNone = false := by
  unfold resolve at h
  cases hr : resolveRaw a keys <;> rw [hr] at h
  · simp at h
  · rename_i w
    cases hn : w.isNaN
    · simp only [hn, Bool.false_eq_true, if_false, Option.some_inj] at h
      exact h ▸ resolveRaw_not_none hr
    · simp [hn] at h

theorem safe_get_of_resolve_some {a : PyVal} {keys : List String} {v : PyVal}
    (h : resolve a keys = some v) (d : PyVal) : safe_get a keys d = v := by
  rw [safe_get_eq_resolve, h]; rfl

theorem safe_get_of_resolve_none {a : PyVal} {keys : List String}
    (h : resolve a keys = Option.none) (d : PyVal) : safe_get a keys d = d := by
  rw [safe_get_eq_resolve, h]; rfl

theorem resolve_of_toRat_default_none {a : PyVal} {keys : List String} {q : ℚ}
    (h : (safe_get a keys PyVal.none).toRat? = some q) :
    resolve a keys = some (safe_get a keys PyVal.none) := by
  cases hr : resolve a keys
  · rw [safe_get_of_resolve_none hr] at h
    simp [PyVal.toRat?] at h
  · rw [safe_get_of_resolve_some hr]

theorem safe_get_not_nan {a : PyVal} {keys : List String} {d : PyVal}
    (hd : d.isNaN = false) : (safe_get a keys d).isNaN = false := by
  cases hr : resolve a keys
  · rw [safe_get_of_resolve_none hr]; exact hd
  · rename_i v
    rw [safe_get_of_resolve_some hr]
    exact resolve_not_nan hr

theorem safe_get_not_none {a : PyVal} {keys : List String} {d : PyVal}
    (hd : d.isNone = false) : (safe_get a keys d).isNone = false := by
  cases hr : resolve a keys
  · rw [safe_get_of_resolve_none hr]; exact hd
  · rename_i v
    rw [safe_get_of_resolve_some hr]
    exact resolve_not_none hr

theorem safe_get_append_missing {a : PyVal} {pre : List String} {v : PyVal}
    (hres : resolveRaw a pre = some v) (k : String) (post : List String)
    (hstep : (step v k).isNone = true) (d : PyVal) :
    safe_get a (pre ++ k :: post) d = d := by
  have ha : a.isNone = false := by
    cases h : a.isNone
    · rfl
    · unfold resolveRaw at hres; rw [h] at hres; simp at hres
  have hw : walk a pre = some v := by
    unfold resolveRaw at hres
    rw [ha] at hres
    simpa using hres
  have hnone : walk a (pre ++ k :: post) = Option.none := by
    rw [walk_append, hw]
    simp only [Option.some_bind, walk, hstep, if_true]
  rw [safe_get_eq_resolve]
  unfold resolve resolveRaw
  rw [ha]
  simp [hnone]

theorem tryBody_eq_ok (d : PyVal) (keys : List String) (val : PyVal) :
    tryBody d val keys = .ok (safe_getLoop d val keys) := by
  induction keys generalizing val with
  | nil => rfl
  | cons k ks ih =>
      simp only [tryBody, stepE, safe_getLoop]
      cases h : (step val k).isNone
      · simp only [h, Bool.false_eq_true, if_false, ih]
      · simp only [h, if_true]

theorem safe_getE_eq_ok (a : PyVal) (keys : List String) (d : PyVal) :
    safe_getE a keys d = .ok (safe_get a keys d) := by
  unfold safe_getE safe_get
  cases h : a.isNone
  · simp only [h, Bool.false_eq_true, if_false, tryBody_eq_ok]
  · simp [h]

theorem step_none_of_entry {v : PyVal} {k : String}
    (h : hasEntry v k = some PyVal.none ∨ hasEntry v k = Option.none) :
    (step v k).isNone = true := by
  cases v <;>
    simp only [hasEntry, step, PyVal.isNone] at h ⊢ <;>
    rcases h with h | h <;> simp [h, PyVal.isNone]

/-! ### Constructor-level reductions for the Python operations -/

theorem PyVal.toRat_int (n : ℤ) : (PyVal.int n).toRat? = some (n : ℚ) := rfl

theorem PyVal.toRat_one : (PyVal.int 1).toRat? = some 1 := by
  rw [PyVal.toRat_int]; norm_num

theorem PyVal.toRat_float (q : ℚ) : (PyVal.float q).toRat? = some q := rfl

theorem pyNeZero_none : pyNeZero PyVal.none = true := rfl

theorem pyNeZero_of_toRat {v : PyVal} {x : ℚ} (hx : v.toRat? = some x) :
    pyNeZero v = decide (x ≠ 0) := by
  unfold pyNeZero
  rw [hx]

theorem pyAbs_float (x : ℚ) : pyAbs (.float x) = .ok (.float |x|) := rfl

theorem pyDiv_ok {a b : PyVal} {x y : ℚ} (hx : a.toRat? = some x)
    (hy : b.toRat? = some y) (hy0 : y ≠ 0) :
    pyDiv a b = .ok (.float (x / y)) := by
  unfold pyDiv
  rw [PyVal.isNum_of_toRat hx, PyVal.isNum_of_toRat hy, PyVal.not_nan_of_toRat hx,
    PyVal.not_nan_of_toRat hy, PyVal.toRat_getD hx, PyVal.toRat_getD hy]
  simp [hy0]

theorem pyMul_float_int (x : ℚ) (n : ℤ) :
    pyMul (.float x) (.int n) = .ok (.float (x * n)) := by
  unfold pyMul
  norm_num [PyVal.isNum, PyVal.isNaN, PyVal.isFloatLike, PyVal.toRat?]

theorem pyGt_int_zero {a : PyVal} {x : ℚ} (hx : a.toRat? = some x) :
    pyGt a (.int 0) = .ok (decide (0 < x)) := by
  unfold pyGt
  rw [PyVal.not_nan_of_toRat hx, hx]
  norm_num [PyVal.isNaN, PyVal.toRat?]

/-! ### The derived metrics -/

theorem profit_factor_eq_pfSpec (ta : PyVal) (w : ℚ)
    (hw : (safe_get ta wonPnlPath (PyVal.int 0)).toRat? = some w)
    (hl : ∀ v ∈ resolve ta lostPnlPath, (PyVal.toRat? v).isSome = true) :
    profit_factor ta = .ok (pfSpec ((resolve ta lostPnlPath).bind PyVal.toRat?) w) := by
  cases hres : resolve ta lostPnlPath with
  | none =>
      have h1 : safe_get ta lostPnlPath PyVal.none = PyVal.none :=
        safe_get_of_resolve_none hres _
      have h2 : safe_get ta lostPnlPath (.int 1) = .int 1 :=
        safe_get_of_resolve_none hres _
      unfold profit_factor
      rw [h1, h2, pyNeZero_none, if_pos rfl,
        pyDiv_ok hw PyVal.toRat_one one_ne_zero]
      simp [pyAbs_float, pfSpec]
  | some v =>
      have hq : (PyVal.toRat? v).isSome = true := hl v (by rw [hres]; rfl)
      obtain ⟨q, hq⟩ := Option.isSome_iff_exists.mp hq
      have h1 : safe_get ta lostPnlPath PyVal.none = v :=
        safe_get_of_resolve_some hres _
      have h2 : safe_get ta lostPnlPath (.int 1) = v :=
        safe_get_of_resolve_some hres _
      unfold profit_factor
      rw [h1, h2, pyNeZero_of_toRat hq]
      by_cases hq0 : q = 0
      · rw [if_neg (by simp [hq0])]
        simp [pfSpec, hq, hq0]
      · rw [if_pos (by simpa using hq0), pyDiv_ok hw hq hq0]
        simp [pyAbs_float, pfSpec, hq, hq0]

theorem win_rate_eq_spec (ta : PyVal) (qc w : ℚ)
    (h1 : (safe_get ta ["total", "closed"] PyVal.none).toRat? = some qc)
    (h2 : (safe_get ta ["won", "total"] (PyVal.int 0)).toRat? = some w) :
    win_rate_pct ta =
      .ok (if 0 < qc then PyVal.float (w / qc * 100) else PyVal.int 0) := by
  have hres : resolve ta ["total", "closed"] =
      some (safe_get ta ["total", "closed"] PyVal.none) :=
    resolve_of_toRat_default_none h1
  have hsame : safe_get ta ["total", "closed"] (PyVal.int 1) =
      safe_get ta ["total", "closed"] PyVal.none := by
    rw [safe_get_of_resolve_some hres, safe_get_of_resolve_some hres]
  unfold win_rate_pct
  rw [pyGt_int_zero h1]
  by_cases hpos : 0 < qc
  · rw [if_pos hpos]
    simp only [decide_eq_true_eq, hpos, if_true]
    rw [hsame, pyDiv_ok h2 h1 (ne_of_gt hpos)]
    rw [show PyVal.float (w / qc * 100) = PyVal.float (w / qc * ((100 : ℤ) : ℚ))
        by norm_num]
    exact pyMul_float_int (w / qc) 100
  · rw [if_neg hpos]
    simp [hpos]

/-! ### Per-field facts for the normalised output -/

theorem entryOK_float (k : String) (x : ℚ) : entryOK (k, .float x) = true := rfl

theorem entryOK_zero_default (k : String) (a : PyVal) (p : List String) :
    entryOK (k, safe_get a p (PyVal.int 0)) = true := by
  unfold entryOK
  rw [safe_get_not_nan (show (PyVal.int 0).isNaN = false from rfl),
    safe_get_not_none (show (PyVal.int 0).isNone = false from rfl)]
  rfl

theorem entryOK_none_default (k : String) (a : PyVal) (p : List String)
    (hk : noneFallbackKeys.contains k = true) :
    entryOK (k, safe_get a p PyVal.none) = true := by
  unfold entryOK
  rw [safe_get_not_nan (show PyVal.none.isNaN = false from rfl), hk, Bool.or_true]
  rfl

theorem entryOK_ite_float_zero (k : String) (c : Prop) [Decidable c] (x : ℚ) :
    entryOK (k, if c then PyVal.float x else PyVal.int 0) = true := by
  split <;> rfl

theorem entryOK_pfSpec (x : Option ℚ) (w : ℚ) :
    entryOK ("profit_factor", pfSpec x w) = true := by
  cases x with
  | none => rfl
  | some q =>
      rw [show pfSpec (some q) w = if q = 0 then PyVal.none else PyVal.float |w / q|
          from rfl]
      by_cases h : q = 0
      · rw [if_pos h]; rfl
      · rw [if_neg h]; rfl

theorem entryOK_of_plain {v : PyVal} (k : String) (h1 : v.isNone = false)
    (h2 : v.isNaN = false) : entryOK (k, v) = true := by
  unfold entryOK
  rw [h1, h2]
  rfl

/-! ### Claims -/

/-- C1 (counterexample): the claim as stated is false on the code.  At a
trade analysis where the losing-PnL entry is absent (`dict []`), the claim
demands `profit_factor = None`, but in Python `None != 0` holds, so the
code computes `abs(0 / 1) = 0.0`, not `None`.  And at a trade analysis
with losing total −250 and no winning entry, the claim demands a positive
float, but the code yields `abs(0 / -250) = 0.0`, which is not positive
(`¬ 0 < 0`). -/
theorem profit_factor_claim_counterexample :
    profit_factor (PyVal.dict []) = .ok (.float 0) ∧
    profit_factor (PyVal.dict []) ≠ .ok PyVal.none ∧
    profit_factor taLostOnly = .ok (.float 0) ∧ ¬ (0 : ℚ) < 0 := by
  have hempty : profit_factor (PyVal.dict []) = .ok (.float 0) := by
    unfold profit_factor
    rw [show safe_get (PyVal.dict []) lostPnlPath PyVal.none = PyVal.none from rfl,
      pyNeZero_none, if_pos rfl,
      show safe_get (PyVal.dict []) wonPnlPath (PyVal.int 0) = PyVal.int 0 from rfl,
      show safe_get (PyVal.dict []) lostPnlPath (PyVal.int 1) = PyVal.int 1 from rfl,
      pyDiv_ok (show (PyVal.int 0).toRat? = some 0 by rw [PyVal.toRat_int]; norm_num)
        PyVal.toRat_one one_ne_zero]
    rw [show ((0 : ℚ) / 1) = 0 by norm_num]
    show pyAbs (PyVal.float 0) = Except.ok (PyVal.float 0)
    rw [pyAbs_float 0, abs_zero]
  have hlost : profit_factor taLostOnly = .ok (.float 0) := by
    unfold profit_factor
    rw [show safe_get taLostOnly lostPnlPath PyVal.none = PyVal.float (-250) from rfl,
      pyNeZero_of_toRat (PyVal.toRat_float (-250)), if_pos (by norm_num),
      show safe_get taLostOnly wonPnlPath (PyVal.int 0) = PyVal.int 0 from rfl,
      show safe_get taLostOnly lostPnlPath (PyVal.int 1) = PyVal.float (-250) from rfl,
      pyDiv_ok (show (PyVal.int 0).toRat? = some 0 by rw [PyVal.toRat_int]; norm_num)
        (PyVal.toRat_float (-250)) (by norm_num)]
    rw [show ((0 : ℚ) / (-250)) = 0 by norm_num]
    show pyAbs (PyVal.float 0) = Except.ok (PyVal.float 0)
    rw [pyAbs_float 0, abs_zero]
  refine ⟨hempty, ?_, hlost, by norm_num⟩
  rw [hempty]
  intro h
  injection h with h1
  exact PyVal.noConfusion h1

/-- C1 (amended): `profit_factor` equals the value described by `pfSpec`
applied to the resolved losing-PnL total and the winning total: it is
`None` exactly when the losing-PnL path resolves to a numeric value equal
to 0; when the losing path does not resolve (absent entry, stored `None`,
or NaN) it is `|won / 1| = |won|`; and when the losing total resolves to a
nonzero number it is the nonnegative float `|won / lost|` (in particular
winning total 500 with losing total −250 gives 2.0). -/
theorem profit_factor_characterization (ta : PyVal) (w : ℚ)
    (hw : (safe_get ta wonPnlPath (PyVal.int 0)).toRat? = some w)
    (hl : ∀ v ∈ resolve ta lostPnlPath, (PyVal.toRat? v).isSome = true) :
    profit_factor ta = .ok (pfSpec ((resolve ta lostPnlPath).bind PyVal.toRat?) w) :=
  profit_factor_eq_pfSpec ta w hw hl

/-- C1 (witness): winning total 500 and losing total −250 give
profit_factor 2.0. -/
theorem profit_factor_characterization_inst :
    profit_factor ta500 = .ok (.float 2) := by
  have hw : (safe_get ta500 wonPnlPath (PyVal.int 0)).toRat? = some 500 := rfl
  have hl : ∀ v ∈ resolve ta500 lostPnlPath, (PyVal.toRat? v).isSome = true := by
    intro v hv
    rw [Option.mem_def] at hv
    rw [show resolve ta500 lostPnlPath = some (PyVal.float (-250)) from rfl] at hv
    injection hv with hv
    rw [← hv]
    rfl
  have h := profit_factor_characterization ta500 500 hw hl
  rw [h, show (resolve ta500 lostPnlPath).bind PyVal.toRat? = some (-250) from rfl,
    show pfSpec (some (-250)) 500 =
      if (-250 : ℚ) = 0 then PyVal.none else PyVal.float |(500 : ℚ) / (-250)| from rfl,
    if_neg (by norm_num), abs_of_nonpos (by norm_num)]
  norm_num

/-- C2 (code bug): with the zero-trade analysis the external analyzer
produces (only the total trade count present, `closed` absent), the
win-rate guard evaluates `None > 0`, which raises `TypeError` — the
computation does raise instead of returning 0.  When the closed count is
present and equal to 0, the code does return the int 0 as the claim
says. -/
theorem win_rate_pct_missing_closed_raises :
    win_rate_pct zeroTradesTA = .error "TypeError" ∧
    win_rate_pct closedZeroTA = .ok (.int 0) :=
  ⟨rfl, rfl⟩

/-- C3: `safe_get` never lets an exception escape — the exception-aware
rendering always returns `.ok` of the pure result — and a step applied to
a value that is neither a mapping with that key nor an object with that
attribute yields Python `None`, upon which the default is returned
immediately. -/
theorem safe_get_never_raises (a : PyVal) (keys : List String) (d : PyVal) :
    safe_getE a keys d = .ok (safe_get a keys d) ∧
    (∀ k rest, (step a k).isNone = true → safe_get a (k :: rest) d = d) := by
  refine ⟨safe_getE_eq_ok a keys d, ?_⟩
  intro k rest h
  cases ha : a.isNone
  · unfold safe_get
    rw [ha]
    simp only [Bool.false_eq_true, if_false, safe_getLoop]
    rw [h]
    rfl
  · unfold safe_get
    rw [ha]
    rfl

/-- C3 (witness): stepping into the non-mapping, attribute-less value
`int 7` returns the default `int 3`, with no exception. -/
theorem safe_get_never_raises_inst :
    safe_getE (PyVal.int 7) ["x"] (PyVal.int 3) =
      .ok (safe_get (PyVal.int 7) ["x"] (PyVal.int 3)) ∧
    safe_get (PyVal.int 7) ["x"] (PyVal.int 3) = PyVal.int 3 := by
  obtain ⟨hA, hB⟩ := safe_get_never_raises (PyVal.int 7) ["x"] (PyVal.int 3)
  exact ⟨hA, hB "x" [] rfl⟩

/-- C4: on a successful run (the resolved trade counters and PnL totals
are numeric, and the annual-return analyzer output is an actual mapping),
the results mapping contains exactly the named fields, in order, and no
field value is NaN; a `None` value occurs only at a field whose explicit
per-field fallback is `None`. -/
theorem results_fields_complete (iv fv : ℚ) (ra sa ca qa da ta aa : PyVal)
    (h1 : ((safe_get ta ["total", "closed"] PyVal.none).toRat?).isSome = true)
    (h2 : ((safe_get ta ["won", "total"] (PyVal.int 0)).toRat?).isSome = true)
    (h3 : ((safe_get ta wonPnlPath (PyVal.int 0)).toRat?).isSome = true)
    (h4 : ((safe_get ta lostPnlPath (PyVal.int 1)).toRat?).isSome = true)
    (ha1 : aa.isNone = false) (ha2 : aa.isNaN = false) :
    (buildResults iv fv ra sa ca qa da ta aa).toOption.map (List.map Prod.fst)
        = some resultKeys
    ∧ fieldsOK (buildResults iv fv ra sa ca qa da ta aa) = true := by
  obtain ⟨qc, hqc⟩ := Option.isSome_iff_exists.mp h1
  obtain ⟨w2, hw2⟩ := Option.isSome_iff_exists.mp h2
  obtain ⟨w3, hw3⟩ := Option.isSome_iff_exists.mp h3
  have hl : ∀ v ∈ resolve ta lostPnlPath, (PyVal.toRat? v).isSome = true := by
    intro v hv
    rw [Option.mem_def] at hv
    rw [safe_get_of_resolve_some hv (PyVal.int 1)] at h4
    exact h4
  have hwr := win_rate_eq_spec ta qc w2 hqc hw2
  have hpf := profit_factor_eq_pfSpec ta w3 hw3 hl
  have hbuild : buildResults iv fv ra sa ca qa da ta aa = .ok
      [("initial_value", .float iv), ("final_value", .float fv),
       ("return_pct", .float (return_pct iv fv)),
       ("annualized_return_pct", safe_get ra ["rannually"] PyVal.none),
       ("sharpe_ratio", safe_get sa ["sharperatio"] PyVal.none),
       ("calmar_ratio", safe_get ca ["calmar"] PyVal.none),
       ("sqn", safe_get qa ["sqn"] PyVal.none),
       ("max_drawdown_pct", safe_get da ["max", "drawdown"] PyVal.none),
       ("max_drawdown_money", safe_get da ["max", "moneydown"] PyVal.none),
       ("max_drawdown_duration_bars", safe_get da ["max", "len"] PyVal.none),
       ("total_trades", safe_get ta ["total", "total"] (PyVal.int 0)),
       ("trades_open", safe_get ta ["total", "open"] (PyVal.int 0)),
       ("trades_closed", safe_get ta ["total", "closed"] (PyVal.int 0)),
       ("win_trades", safe_get ta ["won", "total"] (PyVal.int 0)),
       ("loss_trades", safe_get ta ["lost", "total"] (PyVal.int 0)),
       ("win_rate_pct", if 0 < qc then PyVal.float (w2 / qc * 100) else PyVal.int 0),
       ("total_net_pnl", safe_get ta ["pnl", "net", "total"] (PyVal.int 0)),
       ("average_win_pnl", safe_get ta ["won", "pnl", "average"] (PyVal.int 0)),
       ("average_loss_pnl", safe_get ta ["lost", "pnl", "average"] (PyVal.int 0)),
       ("profit_factor", pfSpec ((resolve ta lostPnlPath).bind PyVal.toRat?) w3),
       ("max_consecutive_wins", safe_get ta ["streak", "won", "longest"] (PyVal.int 0)),
       ("max_consecutive_losses", safe_get ta ["streak", "lost", "longest"] (PyVal.int 0)),
       ("average_trade_duration_bars", safe_get ta ["len", "average"] PyVal.none),
       ("annual_returns", aa)] := by
    unfold buildResults
    rw [hwr, hpf]
  rw [hbuild]
  refine ⟨rfl, ?_⟩
  simp only [fieldsOK, List.all_cons, List.all_nil, Bool.and_true, Bool.and_eq_true]
  exact ⟨entryOK_float _ _, entryOK_float _ _, entryOK_float _ _,
    entryOK_none_default _ _ _ rfl, entryOK_none_default _ _ _ rfl,
    entryOK_none_default _ _ _ rfl, entryOK_none_default _ _ _ rfl,
    entryOK_none_default _ _ _ rfl, entryOK_none_default _ _ _ rfl,
    entryOK_none_default _ _ _ rfl,
    entryOK_zero_default _ _ _, entryOK_zero_default _ _ _,
    entryOK_zero_default _ _ _, entryOK_zero_default _ _ _,
    entryOK_zero_default _ _ _,
    entryOK_ite_float_zero _ _ _,
    entryOK_zero_default _ _ _, entryOK_zero_default _ _ _,
    entryOK_zero_default _ _ _,
    entryOK_pfSpec _ _,
    entryOK_zero_default _ _ _, entryOK_zero_default _ _ _,
    entryOK_none_default _ _ _ rfl,
    entryOK_of_plain _ ha1 ha2⟩

/-- C4 (witness): a fully populated numeric trade analysis yields the
complete, NaN-free field list. -/
theorem results_fields_complete_inst :
    (buildResults 10000 10500 PyVal.none PyVal.none PyVal.none PyVal.none
        PyVal.none fullTA (PyVal.dict [])).toOption.map (List.map Prod.fst)
      = some resultKeys
    ∧ fieldsOK (buildResults 10000 10500 PyVal.none PyVal.none PyVal.none
        PyVal.none PyVal.none fullTA (PyVal.dict [])) = true :=
  results_fields_complete 10000 10500 PyVal.none PyVal.none PyVal.none
    PyVal.none PyVal.none fullTA (PyVal.dict [])
    rfl rfl rfl rfl rfl rfl

/-- C5: when the traversal of the path ends on a floating-point NaN,
`safe_get` returns the supplied default instead of the NaN. -/
theorem safe_get_nan_default (a : PyVal) (keys : List String) (d : PyVal)
    (h : resolveRaw a keys = some PyVal.nan) : safe_get a keys d = d := by
  rw [safe_get_eq_resolve]
  unfold resolve
  rw [h]
  rfl

/-- C5 (witness): the spec example, a report with a NaN at
`["a", "b"]` and default 0. -/
theorem safe_get_nan_default_inst :
    safe_get nanReport ["a", "b"] (PyVal.int 0) = PyVal.int 0 :=
  safe_get_nan_default nanReport ["a", "b"] (PyVal.int 0) rfl

/-- C6: on a `None` report, `safe_get` returns exactly the supplied
default for every path, and never raises (the exception-aware rendering
returns `.ok` of that default). -/
theorem safe_get_none_report (keys : List String) (d : PyVal) :
    safe_get PyVal.none keys d = d ∧ safe_getE PyVal.none keys d = .ok d :=
  ⟨rfl, rfl⟩

/-- C7: `safe_get` follows the path one step at a time — key lookup on
mappings, attribute lookup otherwise, as `step` embeds — and equals the
full path resolution when it succeeds and the default otherwise; in
particular, as soon as an intermediate step is missing, the result is
exactly the supplied default, never a partial value. -/
theorem safe_get_traversal (a : PyVal) (keys : List String) (d : PyVal) :
    safe_get a keys d = (resolve a keys).getD d ∧
    (∀ pre k post v, keys = pre ++ k :: post → resolveRaw a pre = some v →
      (step v k).isNone = true → safe_get a keys d = d) := by
  refine ⟨safe_get_eq_resolve a keys d, ?_⟩
  intro pre k post v hkeys hres hstep
  rw [hkeys]
  exact safe_get_append_missing hres k post hstep d

/-- C7 (witness): looking up the key "y", missing from the mapping,
yields the default immediately. -/
theorem safe_get_traversal_inst :
    safe_get (PyVal.dict [("x", PyVal.int 1)]) ["y"] (PyVal.int 9) = PyVal.int 9 := by
  have h := safe_get_traversal (PyVal.dict [("x", PyVal.int 1)]) ["y"] (PyVal.int 9)
  exact h.2 [] "y" [] (PyVal.dict [("x", PyVal.int 1)]) rfl rfl rfl

/-- C8 (counterexample): a metric-extraction failure does propagate.  With
an engine phase that succeeded but a zero-trade analysis (the `closed`
count absent), the win-rate guard's `None > 0` raises `TypeError`, and
`run_backtest` turns into a hard failure instead of absorbing the missing
metric with a default. -/
theorem run_backtest_metric_failure_propagates :
    run_backtest sampleParams (.ok zeroTradesEngine) =
      .error ("TypeError",
        { parameters := sampleParams, results := [], error := some "TypeError" }) :=
  rfl

/-- C8 (amended): when the body of `run_backtest` raises — an engine/data
failure, or the `TypeError` the win-rate guard raises when the
closed-trade count is absent — the error string is recorded in the
output's `error` field and the exception is re-raised to the caller;
`safe_get`-level extraction itself absorbs all its failures (missing
keys/attributes, `None` analyses, NaN) and never raises. -/
theorem run_backtest_error_recorded (p : Params) (engine : Except String EngineRun) :
    (∀ e, runBody engine = .error e →
      run_backtest p engine =
        .error (e, { parameters := p, results := [], error := some e })) ∧
    (∀ a keys d, safe_getE a keys d = .ok (safe_get a keys d)) := by
  constructor
  · intro e h
    unfold run_backtest
    rw [h]
  · intro a keys d
    exact safe_getE_eq_ok a keys d

/-- C8 (witness): an engine failure "boom" is recorded in the error field
and re-raised. -/
theorem run_backtest_error_recorded_inst :
    run_backtest sampleParams (.error "boom") =
      .error ("boom",
        { parameters := sampleParams, results := [], error := some "boom" }) :=
  (run_backtest_error_recorded sampleParams (.error "boom")).1 "boom" rfl

/-- C9: on a successful run, `run_backtest` returns exactly the triple of
`parameters` (carrying the symbols, dates and window lengths passed in,
unchanged), `results` (the built mapping) and `error = None`. -/
theorem run_backtest_output_contract (p : Params) (engine : Except String EngineRun)
    (res : List (String × PyVal)) (h : runBody engine = .ok res) :
    run_backtest p engine =
      .ok { parameters := { symbols := p.symbols, start_date := p.start_date,
                            end_date := p.end_date, fast_period := p.fast_period,
                            slow_period := p.slow_period },
            results := res, error := Option.none } := by
  unfold run_backtest
  rw [h]

/-- C9 (witness): a concrete successful run returns the full triple with
the parameters passed through and a `None` error. -/
theorem run_backtest_output_contract_inst :
    run_backtest sampleParams (.ok plainEngine) =
      .ok { parameters := { symbols := sampleParams.symbols,
                            start_date := sampleParams.start_date,
                            end_date := sampleParams.end_date,
                            fast_period := sampleParams.fast_period,
                            slow_period := sampleParams.slow_period },
            results := plainResults, error := Option.none } :=
  run_backtest_output_contract sampleParams (.ok plainEngine) plainResults rfl

/-- C10: a stored Python `None` behaves exactly like a missing entry:
whenever an intermediate value genuinely stores `None` under the next key
or attribute — or has no such entry at all — `safe_get` returns the
supplied default. -/
theorem safe_get_stored_none (a : PyVal) (pre : List String) (k : String)
    (post : List String) (d v : PyVal) (hres : resolveRaw a pre = some v)
    (h : hasEntry v k = some PyVal.none ∨ hasEntry v k = Option.none) :
    safe_get a (pre ++ k :: post) d = d :=
  safe_get_append_missing hres k post (step_none_of_entry h) d

/-- C10 (witness): the key "a" exists and stores `None`; the default 0 is
returned, exactly as for a missing key. -/
theorem safe_get_stored_none_inst :
    safe_get (PyVal.dict [("a", PyVal.none)]) ([] ++ "a" :: []) (PyVal.int 0) =
      PyVal.int 0 :=
  safe_get_stored_none (PyVal.dict [("a", PyVal.none)]) [] "a" []
    (PyVal.int 0) (PyVal.dict [("a", PyVal.none)]) rfl (Or.inl rfl)

end Course0
